import Mathlib

/-!
Verification of the Valence OpenClaw memory-plugin bridge.

This file shallowly embeds the session-tracking, transport and
disaster-recovery logic of the plugin (src/plugin/index.ts,
src/plugin/client.ts, src/plugin/session-hooks.ts and the MCP client
shown in src/README.md) and proves the testable properties of its
specification.  JavaScript runtime values that cross the embedded code
are modelled by `JsValue`; external library calls (`JSON.parse`, the
network, the subprocess) are modelled as explicit outcome parameters,
and each hook body is translated into a pure function from its inputs
and the outcome of its remote call to the calls it issues, the new
in-memory state and whether it propagated an exception.
-/

/-- JavaScript/JSON runtime values as they appear in the plugin: strings,
numbers (modelled as rationals), booleans, null, arrays and objects
(field lists in insertion order).  `undefined` arising from a missing
object field is modelled by `Option.none` at the access site. -/
inductive JsValue where
  | str (s : String)
  | num (q : ℚ)
  | bool (b : Bool)
  | null
  | arr (elems : List JsValue)
  | obj (fields : List (String × JsValue))
deriving Repr

/-- JavaScript truthiness of a value ("" , 0, false and null are falsy;
every object and array is truthy). -/
def jsTruthy : JsValue → Bool
  | .str s => s ≠ ""
  | .num q => q ≠ 0
  | .bool b => b
  | .null => false
  | .arr _ => true
  | .obj _ => true

/-- Property access `v.k` on a parsed JSON value: a field of an object,
`none` (undefined) when the field is missing or the value is not an
object.  Access on `null` throws in JavaScript; the call sites where the
source can reach that case model the throw explicitly. -/
def jsGet (v : JsValue) (k : String) : Option JsValue :=
  match v with
  | .obj fields => (fields.find? (fun p => p.1 = k)).map (fun p => p.2)
  | _ => none

/-- JavaScript `a || b` where `a` is a possibly-undefined field access:
keeps `a` when it is present and truthy, otherwise falls back to `b`. -/
def jsOrElse (a : Option JsValue) (b : JsValue) : JsValue :=
  match a with
  | some v => if jsTruthy v then v else b
  | none => b

/-- ASCII whitespace stripped by `String.prototype.trim` (the JS set
also has exotic Unicode members that never occur here). -/
def isJsWhitespace (c : Char) : Bool :=
  c = ' ' ∨ c = '\t' ∨ c = '\n' ∨ c = '\r'

/-- JavaScript `s.trim()`, modelled on the character list so that it is
kernel-evaluable. -/
def jsTrim (s : String) : String :=
  ⟨((s.data.dropWhile isJsWhitespace).reverse.dropWhile isJsWhitespace).reverse⟩

/-- JavaScript `s.slice(0, n)` (character-based approximation of UTF-16
code units). -/
def jsSlice (s : String) (n : Nat) : String :=
  ⟨s.data.take n⟩

-- ======================================================================
-- Session Tracker state (src/plugin/index.ts line 45):
--   const sessionMap = new Map<string, string>()
-- A JS Map is modelled as an insertion-ordered association list.
-- ======================================================================

/-- The in-memory local-key to remote-session-id map, in insertion order
(JavaScript `Map` iteration order). -/
abbrev SessionMap : Type := List (String × String)

/-- JS `Map.prototype.has`. -/
def mapHas (m : SessionMap) (k : String) : Bool :=
  (List.find? (fun p => p.1 = k) m).isSome

/-- JS `Map.prototype.get` (undefined as `none`). -/
def mapGet (m : SessionMap) (k : String) : Option String :=
  (List.find? (fun p => p.1 = k) m).map (fun p => p.2)

/-- JS `Map.prototype.set`: updates the existing entry in place (keeping
insertion order) or appends a new one. -/
def mapSet (m : SessionMap) (k v : String) : SessionMap :=
  if mapHas m k then
    m.map (fun p => if p.1 = k then (k, v) else p)
  else
    m ++ [(k, v)]

/-- JS `Map.prototype.delete`. -/
def mapDelete (m : SessionMap) (k : String) : SessionMap :=
  List.filter (fun p => p.1 ≠ k) m

/-- Keys of the session map. -/
def mapKeys (m : SessionMap) : List String :=
  m.map (fun p => p.1)

/-- The number of entries the tracker holds for a given local key. -/
def countKey (m : SessionMap) (k : String) : Nat :=
  (List.filter (fun p => p.1 = k) m).length

/-- Invariant of the tracker: the map never holds two entries with the
same local key (true of a JS `Map` by construction; proved here for the
association-list model). -/
def KeysNodup (m : SessionMap) : Prop :=
  (mapKeys m).Nodup

-- ======================================================================
-- Session Tracker hooks (src/plugin/index.ts lines 1784-1857, 1935-1939)
-- ======================================================================

/-- Outcome of one awaited remote `mcpCall`: either it returned a JSON
value or it threw (network error, HTTP error, RPC error, tool error). -/
inductive CallOutcome where
  | ok (v : JsValue)
  | err (msg : String)

/-- One remote call issued by a hook: the MCP tool name and the
`session_id` argument it carried (`none` when the request carries no
session id, as in `session_start`). -/
structure ValenceCall where
  tool : String
  sessionId : Option String
deriving Repr, DecidableEq

/-- Result of running one lifecycle hook: the remote calls it issued (in
order), the session map afterwards, and whether the handler propagated
an exception to the host runtime. -/
structure HookResult where
  calls : List ValenceCall
  map : SessionMap
  raised : Bool
deriving Repr, DecidableEq

/-- Outcome of the awaited `mcpCall(cfg, "session_start", ...)`: on
success the handler reads `result.session_id as string | undefined`. -/
inductive StartOutcome where
  | ok (sessionId : Option String)
  | err (msg : String)

/-- The `session_start` hook (src/plugin/index.ts lines 1784-1802): calls
`session_start` remotely; when the response carries a truthy
`session_id`, records `sessionMap.set(ctx.sessionId, valenceId)`.  The
whole body is inside try/catch, so a failed remote call is logged and
swallowed. -/
def sessionStartHook (m : SessionMap) (ctxSessionId : String) (o : StartOutcome) : HookResult :=
  match o with
  | .err _ => ⟨[⟨"session_start", none⟩], m, false⟩
  | .ok valenceId =>
    match valenceId with
    | none => ⟨[⟨"session_start", none⟩], m, false⟩
    | some vid =>
      if vid = "" then ⟨[⟨"session_start", none⟩], m, false⟩
      else ⟨[⟨"session_start", none⟩], mapSet m ctxSessionId vid, false⟩

/-- The `session_end` hook (src/plugin/index.ts lines 1804-1818): looks
the local key up in the map and returns immediately when it is not
tracked (falsy); otherwise calls `session_end` remotely and only then —
still inside the try — deletes the mapping, so a failed remote call
leaves the mapping in place (the catch only logs). -/
def sessionEndHook (m : SessionMap) (ctxSessionId : String) (o : CallOutcome) : HookResult :=
  match mapGet m ctxSessionId with
  | none => ⟨[], m, false⟩
  | some vid =>
    if vid = "" then ⟨[], m, false⟩
    else
      match o with
      | .ok _ => ⟨[⟨"session_end", some vid⟩], mapDelete m ctxSessionId, false⟩
      | .err _ => ⟨[⟨"session_end", some vid⟩], m, false⟩

/-- Session lookup for the exchange-recording hooks
(src/plugin/index.ts lines 2015-2027, `findValenceSession`): a falsy key
yields nothing; a tracked key yields its mapping; otherwise the loop
`for (const [, valenceId] of sessionMap) return valenceId` returns the
id of the FIRST entry of the (non-empty) map. -/
def findValenceSession (sessionMap : SessionMap) (key : Option String) : Option String :=
  match key with
  | none => none
  | some k =>
    if k = "" then none
    else if mapHas sessionMap k then mapGet sessionMap k
    else
      match sessionMap with
      | [] => none
      | (_, valenceId) :: _ => some valenceId

/-- Shared body of the two exchange-recording hooks
(src/plugin/index.ts lines 1823-1856): look up the session via
`findValenceSession` on `ctx.conversationId ?? ctx.channelId`; if
untracked, return; inside the try, a falsy `event.content` returns,
otherwise one `exchange_add` call is issued; the catch swallows a failed
call.  The hook never touches the session map. -/
def exchangeAddHook (m : SessionMap) (key : Option String) (content : Option String)
    (_o : CallOutcome) : HookResult :=
  match findValenceSession m key with
  | none => ⟨[], m, false⟩
  | some vid =>
    match content with
    | none => ⟨[], m, false⟩
    | some c =>
      if c = "" then ⟨[], m, false⟩
      else ⟨[⟨"exchange_add", some vid⟩], m, false⟩

/-- The `message_received` hook (role "user"). -/
def messageReceivedHook (m : SessionMap) (key : Option String) (content : Option String)
    (o : CallOutcome) : HookResult :=
  exchangeAddHook m key content o

/-- The `message_sent` hook (role "assistant"). -/
def messageSentHook (m : SessionMap) (key : Option String) (content : Option String)
    (o : CallOutcome) : HookResult :=
  exchangeAddHook m key content o

/-- The service `stop` handler (src/plugin/index.ts lines 1935-1939):
`sessionMap.clear()`. -/
def serviceStopHook (_m : SessionMap) : HookResult :=
  ⟨[], [], false⟩

/-- One operation on the session tracker, for stating map invariants
uniformly over every hook that can touch the map. -/
inductive TrackerOp where
  | sessionStart (key : String) (o : StartOutcome)
  | sessionEnd (key : String) (o : CallOutcome)
  | messageReceived (key : Option String) (content : Option String) (o : CallOutcome)
  | messageSent (key : Option String) (content : Option String) (o : CallOutcome)
  | serviceStop

/-- The session map after running one tracker operation. -/
def trackerStep (m : SessionMap) : TrackerOp → SessionMap
  | .sessionStart key o => (sessionStartHook m key o).map
  | .sessionEnd key o => (sessionEndHook m key o).map
  | .messageReceived key content o => (messageReceivedHook m key content o).map
  | .messageSent key content o => (messageSentHook m key content o).map
  | .serviceStop => (serviceStopHook m).map

-- ======================================================================
-- CLI transport (src/plugin/client.ts) and CLI session hooks
-- (src/plugin/session-hooks.ts)
-- ======================================================================

/-- The result record every CLI transport call resolves with
(src/plugin/client.ts `ValenceResult`): `success` flag, optional parsed
`data`, optional `error` (carried as a runtime value, since
`parsed.error` need not be a string). -/
structure ValenceResult where
  success : Bool
  data : Option JsValue
  error : Option JsValue
deriving Repr

/-- Effective subprocess timeout from `options?.timeout ?? 30000`
(src/plugin/client.ts lines 37 and 80): 30 seconds unless the caller
passes its own. -/
def effectiveTimeout (timeoutOption : Option Nat) : Nat :=
  timeoutOption.getD 30000

/-- One `valenceExec` invocation as issued by a hook: the CLI argument
list (after the leading `--json`) and the timeout option passed. -/
structure CliInvocation where
  args : List String
  timeoutOption : Option Nat
deriving Repr, DecidableEq, Inhabited

/-- Outcome of `await execFileAsync("valence", ...)` inside
`valenceExec`: the promise either resolves with the captured stdout and
stderr, or rejects (non-zero exit, timeout kill, spawn error) with an
error object carrying `stderr`, `stdout` and a message. -/
inductive ExecOutcome where
  | ok (stdout stderr : String)
  | err (stderr stdout message : String)

/-- Whether the subprocess promise resolved cleanly. -/
def ExecOutcome.isOk : ExecOutcome → Bool
  | .ok _ _ => true
  | .err _ _ _ => false

/-- The CLI backend `valenceExec` (src/plugin/client.ts lines 22-59),
as a function of the environment's `JSON.parse` (modelled by `parse`,
`none` meaning a SyntaxError) and the subprocess outcome.  On resolved
stdout that fails to parse, the trimmed text is wrapped as a success
result.  On rejection, it first tries to parse the error's stdout; a
parsed `null` makes the `parsed.error` access throw, landing in the
inner catch exactly as unparseable output does.  Every path returns a
`ValenceResult`; nothing rethrows. -/
def valenceExec (parse : String → Option JsValue) (o : ExecOutcome) : ValenceResult :=
  match o with
  | .ok stdout _stderr =>
    match parse stdout with
    | some parsed => ⟨true, some parsed, none⟩
    | none => ⟨true, some (.obj [("text", .str (jsTrim stdout))]), none⟩
  | .err stderr stdout message =>
    match parse stdout with
    | some .null =>
      ⟨false, none, some (.str (if stderr ≠ "" then stderr else message))⟩
    | some parsed =>
      ⟨false, some parsed, some (jsOrElse (jsGet parsed "error") (.str stderr))⟩
    | none =>
      ⟨false, none, some (.str (if stderr ≠ "" then stderr else message))⟩

/-- Outcome of the spawned subprocess inside `valenceExecWithStdin`:
either a `close` event with an exit code (`none` models `null` when the
child was killed by a signal, e.g. on timeout) and the accumulated
stdout/stderr, or an `error` event. -/
inductive SpawnOutcome where
  | close (code : Option Int) (stdout stderr : String)
  | procError (message : String)

/-- Whether the spawn outcome is a clean zero exit. -/
def SpawnOutcome.isCleanExit : SpawnOutcome → Bool
  | .close code _ _ => code = some 0
  | .procError _ => false

/-- The stdin-feeding CLI backend `valenceExecWithStdin`
(src/plugin/client.ts lines 64-105).  The executor resolves on `close`
(parsing stdout, falling back to the trimmed-text wrapper, with the
`parsed.error` access on a parsed `null` throwing into the catch when
the exit code is non-zero) and on `error`; it never rejects. -/
def valenceExecWithStdin (parse : String → Option JsValue) (o : SpawnOutcome) : ValenceResult :=
  match o with
  | .procError message => ⟨false, none, some (.str message)⟩
  | .close code stdout stderr =>
    match parse stdout with
    | some parsed =>
      if code = some 0 then ⟨true, some parsed, none⟩
      else
        match parsed with
        | .null => ⟨false, some (.obj [("text", .str (jsTrim stdout))]), some (.str stderr)⟩
        | _ => ⟨false, some parsed, some (jsOrElse (jsGet parsed "error") (.str stderr))⟩
    | none =>
      if code = some 0 then ⟨true, some (.obj [("text", .str (jsTrim stdout))]), none⟩
      else ⟨false, some (.obj [("text", .str (jsTrim stdout))]), some (.str stderr)⟩

-- ----------------------------------------------------------------------
-- healthCheck (src/plugin/client.ts lines 110-120) and the
-- `valence status` CLI command (src/plugin/index.ts lines 1950-1963)
-- ----------------------------------------------------------------------

/-- Shape of the health-check result. -/
structure HealthResult where
  ok : Bool
  version : Option JsValue
  database : Option JsValue
  error : Option JsValue
deriving Repr

/-- The invocation `valenceExec(cfg, ["status"], { timeout: 5000 })`
issued by `healthCheck` (src/plugin/client.ts line 111). -/
def healthCheckInvocation : CliInvocation :=
  ⟨["status"], some 5000⟩

/-- Unwrapping of the health-check CLI result
(src/plugin/client.ts lines 112-119): `ok: true` with version and
database fields when the call succeeded with truthy data, otherwise
`ok: false` carrying the transport error.  Total: it never throws. -/
def healthCheck (result : ValenceResult) : HealthResult :=
  match result.data with
  | some d =>
    if result.success && jsTruthy d then
      { ok := true
        version := some (jsOrElse (jsGet d "version") (jsOrElse (jsGet d "valence_version") .null))
        database := some (jsOrElse (jsGet d "database") (jsOrElse (jsGet d "db_name") .null))
        error := none }
    else
      { ok := false, version := none, database := none, error := result.error }
  | none => { ok := false, version := none, database := none, error := result.error }

/-- Exit code set by the `valence status` CLI action
(src/plugin/index.ts lines 1953-1963): `process.exitCode = 1` when the
health check reports unreachability, untouched (0) otherwise. -/
def valenceStatusExitCode (health : HealthResult) : Nat :=
  if health.ok then 0 else 1

-- ----------------------------------------------------------------------
-- CLI session hooks (src/plugin/session-hooks.ts)
-- ----------------------------------------------------------------------

/-- The `before_compaction` hook of the CLI backend
(src/plugin/session-hooks.ts lines 104-122): with no session id it
returns; otherwise it always runs `sessions flush` (default timeout)
and, when `autoCompileOnFlush` is configured, immediately afterwards
`sessions compile` with an explicit 120-second timeout.  Since
`valenceExec` always resolves, both calls are issued unconditionally in
that order. -/
def beforeCompactionHook (autoCompileOnFlush : Bool) (sessionId : Option String) :
    List CliInvocation :=
  match sessionId with
  | none => []
  | some sid =>
    if sid = "" then []
    else if autoCompileOnFlush then
      [⟨["sessions", "flush", sid], none⟩, ⟨["sessions", "compile", sid], some 120000⟩]
    else
      [⟨["sessions", "flush", sid], none⟩]

/-- Result of a CLI-backend hook: the `valenceExec` invocations it made
and whether it propagated an exception (the bodies are wrapped in
try/catch and `valenceExec` always resolves, so this is always false). -/
structure CliHookResult where
  invocations : List CliInvocation
  raised : Bool
deriving Repr, DecidableEq, Inhabited

/-- The `subagent_spawned` hook of the CLI backend
(src/plugin/session-hooks.ts lines 138-157): always starts a child
session; the `--parent-session-id` flag is appended only when the
module-level `currentSessionId` is truthy.  The single `valenceExec`
call never rejects and the body is inside try/catch, so the hook never
raises. -/
def subagentSpawnedHook (currentSessionId : Option String) (childId platform channel : String) :
    CliHookResult :=
  match currentSessionId with
  | some parentId =>
    if parentId = "" then
      ⟨[⟨["sessions", "start", childId, "--platform", platform, "--channel", channel], none⟩], false⟩
    else
      ⟨[⟨["sessions", "start", childId, "--platform", platform, "--channel", channel,
          "--parent-session-id", parentId], none⟩], false⟩
  | none =>
    ⟨[⟨["sessions", "start", childId, "--platform", platform, "--channel", channel], none⟩], false⟩

-- ======================================================================
-- MCP HTTP client (src/README.md lines 256-323, `mcpCall`)
-- ======================================================================

/-- One item of an MCP tool response's `content` array. -/
structure ContentItem where
  type : String
  text : String
deriving Repr, DecidableEq

/-- What the HTTP round-trip and JSON-RPC envelope produced, before
`mcpCall` unwraps the tool result: a non-2xx response, an RPC-level
error, a tool-level error (`result.isError`), or a normal result whose
`content` array may be absent. -/
inductive McpOutcome where
  | httpError (status : Nat) (body : String)
  | rpcError (code : Int) (message : String)
  | toolError (content : Option (List ContentItem))
  | result (content : Option (List ContentItem))

/-- The RPC backend `mcpCall` (src/README.md lines 275-323): throws on
HTTP, RPC and tool errors; otherwise collects the text content items,
returns `{}` when there are none, and tries to `JSON.parse` the joined
text, wrapping it as `{ text: joined }` on parse failure rather than
raising. -/
def mcpCall (parse : String → Option JsValue) (o : McpOutcome) : Except String JsValue :=
  match o with
  | .httpError status body =>
    .error ("Valence HTTP " ++ toString status ++ ": " ++ body)
  | .rpcError code message =>
    .error ("Valence MCP error " ++ toString code ++ ": " ++ message)
  | .toolError content =>
    .error ("Valence tool error: " ++
      (match content with
       | some items => String.intercalate "\n" (items.map (fun c => c.text))
       | none => "Unknown error"))
  | .result content =>
    let items := match content with
      | some items => items
      | none => []
    let texts := (items.filter (fun c => c.type = "text")).map (fun c => c.text)
    if texts.isEmpty then .ok (.obj [])
    else
      let joined := String.intercalate "\n" texts
      match parse joined with
      | some v => .ok v
      | none => .ok (.obj [("text", .str joined)])

-- ======================================================================
-- String rendering helpers shared by the recall and snapshot code
-- ======================================================================

/-- JavaScript string conversion as used in template literals and
`Array.prototype.join`.  Number formatting is approximated by the
rational's canonical rendering (integers render exactly); objects render
as "[object Object]"; arrays join their elements with commas. -/
def jsToString : JsValue → String
  | .str s => s
  | .num q => if q.den = 1 then toString q.num else toString q
  | .bool b => if b then "true" else "false"
  | .null => "null"
  | .obj _ => "[object Object]"
  | .arr l => String.intercalate "," (l.attach.map (fun x => jsToString x.1))
decreasing_by
  have := List.sizeOf_lt_of_mem x.2
  simp only [JsValue.arr.sizeOf_spec]
  omega

/-- Template interpolation of an object field: a missing field renders
as "undefined". -/
def jsTemplateField (v : JsValue) (k : String) : String :=
  match jsGet v k with
  | none => "undefined"
  | some w => jsToString w

/-- The confidence annotation shown for a belief
(src/plugin/index.ts lines 22-29 and 2104-2108):
`confidence.overall ?? "?"` when `confidence` is a truthy object,
otherwise "?". -/
def beliefConfDisplay (b : JsValue) : String :=
  match jsGet b "confidence" with
  | some (.obj fields) =>
    match fields.find? (fun p => p.1 = "overall") with
    | some (_, .null) => "?"
    | some (_, v) => jsToString v
    | none => "?"
  | _ => "?"

/-- Whether evaluating `beliefSummary(belief)` throws: the property
access `belief.confidence` (src/plugin/index.ts line 24) raises a
TypeError when the belief is `null` — the unchecked cast on the remote
response is erased at runtime, so a `null` entry in a `beliefs` array
reaches it — while property access on every other JSON value (object,
array, string, number, boolean) is safe. -/
def beliefSummaryThrows : JsValue → Bool
  | .null => true
  | _ => false

/-- The one-line belief summary (src/plugin/index.ts lines 22-29,
`beliefSummary`): the rendered string for the beliefs on which the
body does not throw; the throwing `null` case is modelled by
`beliefSummaryThrows` at the call sites. -/
def beliefSummary (belief : JsValue) : String :=
  let conf := beliefConfDisplay belief
  let domain :=
    match jsGet belief "domain_path" with
    | some (.arr l) => String.intercalate "/" (l.map jsToString)
    | _ => ""
  "[" ++ conf ++ "] " ++ (if domain = "" then "" else "(" ++ domain ++ ") ") ++
    jsTemplateField belief "content"

-- ======================================================================
-- Auto-Recall: the before_agent_start hook
-- (src/plugin/index.ts lines 1649-1723)
-- ======================================================================

/-- The static system prompt returned by every `before_agent_start`
invocation (src/plugin/index.ts lines 1649-1665), the four sentences
joined with a space. -/
def valenceSystemPrompt : String :=
  String.intercalate " "
    [ "You have access to a structured knowledge base (Valence) with tools for: " ++
      "knowledge management (belief_query, belief_search, belief_create, belief_supersede, belief_get, belief_archive, confidence_explain), " ++
      "entities (entity_search, entity_get), tensions (tension_list, tension_resolve), " ++
      "patterns (pattern_search, pattern_record, pattern_reinforce, pattern_list), " ++
      "insights (insight_extract, insight_list), sessions (session_get, session_list, exchange_list), " ++
      "trust & verification (trust_check, belief_corroboration, corroboration_submit, verification_submit/accept/get/list/summary), " ++
      "sharing (belief_share, belief_shares_list, belief_share_revoke), " ++
      "disputes (dispute_submit, dispute_resolve, dispute_get), " ++
      "reputation (reputation_get, reputation_events, bounty_get, bounty_list, calibration_run, calibration_history), " ++
      "rewards (rewards_pending, reward_claim, rewards_claim_all, transfer_history, velocity_status), " ++
      "consensus (consensus_status, challenge_submit, challenge_resolve, challenge_get, challenges_list), " ++
      "and backup (backup_create, backup_verify, backup_list, backup_get).",
      "Use belief_query or belief_search BEFORE answering questions about past decisions, user preferences, technical approaches, or any topic that may have been discussed before.",
      "Use belief_create proactively when decisions are made, preferences are expressed, or important facts are shared.",
      "You also have memory_search and memory_get for file-based memory (MEMORY.md) as a fallback." ]

/-- What one `before_agent_start` invocation produced: the system prompt
it returned, whether it issued the `belief_query` recall call, and
whether it attempted to read the MEMORY.md disaster-recovery file. -/
structure AgentStartResult where
  systemPrompt : String
  queried : Bool
  readMemoryMd : Bool
deriving Repr, DecidableEq

/-- The system prompt with recalled beliefs injected
(src/plugin/index.ts lines 1690-1697). -/
def injectedPrompt (beliefs : List JsValue) : String :=
  valenceSystemPrompt ++ "\n\n<relevant-knowledge>\n" ++
    "The following beliefs from the knowledge base may be relevant:\n" ++
    String.intercalate "\n" (beliefs.map (fun b => "- " ++ beliefSummary b)) ++ "\n" ++
    "</relevant-knowledge>"

/-- The system prompt built from the MEMORY.md fallback snapshot
(src/plugin/index.ts lines 1707-1714); the snapshot is truncated to its
first 4000 characters. -/
def fallbackPrompt (mdContent : String) : String :=
  valenceSystemPrompt ++ "\n\n<relevant-knowledge source=\"MEMORY.md\" fallback=\"true\">\n" ++
    "Valence was unreachable. Here is the last-synced knowledge snapshot:\n" ++
    (jsSlice mdContent 4000) ++ "\n" ++
    "</relevant-knowledge>"

/-- The catch branch of the hook (src/plugin/index.ts lines 1698-1721):
when a MEMORY.md path is configured, try to read the file (`none`
models a failed read, e.g. the file does not exist); a non-blank
snapshot is injected, anything else falls through to the base result. -/
def recallFallback (memoryMdAbsPath : Option String) (memoryMdFile : Option String) :
    AgentStartResult :=
  match memoryMdAbsPath with
  | none => ⟨valenceSystemPrompt, true, false⟩
  | some _ =>
    match memoryMdFile with
    | none => ⟨valenceSystemPrompt, true, true⟩
    | some mdContent =>
      if (jsTrim mdContent).length > 0 then ⟨fallbackPrompt mdContent, true, true⟩
      else ⟨valenceSystemPrompt, true, true⟩

/-- The `before_agent_start` hook (src/plugin/index.ts lines 1668-1723)
as a function of the configuration flag, the incoming prompt, the
outcome of the awaited `belief_query` call, the resolved MEMORY.md path
and the file's content.  With recall disabled or a falsy/short prompt
it returns the base result without calling out.  A successful recall
whose `beliefs` field is empty (or absent) returns the base result
WITHOUT touching MEMORY.md; a non-empty list whose rendering does not
throw is injected; a `null` entry makes `beliefSummary` throw on the
`belief.confidence` access, and a non-array `beliefs` field makes the
belief mapping itself throw — both land inside the try, in the same
catch as a failed call.  Only the catch reads MEMORY.md. -/
def beforeAgentStart (autoRecall : Bool) (prompt : Option String)
    (recallResult : Except String JsValue) (memoryMdAbsPath : Option String)
    (memoryMdFile : Option String) : AgentStartResult :=
  let short : Bool :=
    match prompt with
    | none => true
    | some p => p.length < 5
  if autoRecall = false ∨ short = true then ⟨valenceSystemPrompt, false, false⟩
  else
    match recallResult with
    | .error _ => recallFallback memoryMdAbsPath memoryMdFile
    | .ok v =>
      match jsGet v "beliefs" with
      | none => ⟨valenceSystemPrompt, true, false⟩
      | some .null => ⟨valenceSystemPrompt, true, false⟩
      | some (.arr []) => ⟨valenceSystemPrompt, true, false⟩
      | some (.arr (b :: bs)) =>
        if (b :: bs).any beliefSummaryThrows then recallFallback memoryMdAbsPath memoryMdFile
        else ⟨injectedPrompt (b :: bs), true, false⟩
      | some (.str "") => ⟨valenceSystemPrompt, true, false⟩
      | some _ => recallFallback memoryMdAbsPath memoryMdFile

-- ======================================================================
-- Disaster-Recovery snapshot sync (src/plugin/index.ts lines 1869-1911
-- and 2055-2127)
-- ======================================================================

theorem mapHas_iff_mem (m : SessionMap) (k : String) :
    mapHas m k = true ↔ k ∈ mapKeys m := by
  simp only [mapHas, mapKeys, List.find?_isSome, List.mem_map]
  constructor
  · rintro ⟨p, hp, he⟩
    exact ⟨p, hp, by simpa using he⟩
  · rintro ⟨p, hp, he⟩
    exact ⟨p, hp, by simpa using he⟩

theorem mapKeys_mapSet_of_has (m : SessionMap) (k v : String) (h : mapHas m k = true) :
    mapKeys (mapSet m k v) = mapKeys m := by
  simp only [mapSet, h, if_true, mapKeys, List.map_map]
  refine List.map_congr_left ?_
  intro p _
  by_cases hp : p.1 = k
  · simp [hp]
  · simp [hp]

theorem mapKeys_mapSet_of_not_has (m : SessionMap) (k v : String) (h : mapHas m k = false) :
    mapKeys (mapSet m k v) = mapKeys m ++ [k] := by
  simp [mapSet, h, mapKeys]

theorem keysNodup_mapSet (m : SessionMap) (k v : String) (h : KeysNodup m) :
    KeysNodup (mapSet m k v) := by
  unfold KeysNodup at *
  by_cases hh : mapHas m k = true
  · rw [mapKeys_mapSet_of_has m k v hh]; exact h
  · rw [mapKeys_mapSet_of_not_has m k v (by simpa using hh)]
    have hk : k ∉ mapKeys m := fun hmem => hh ((mapHas_iff_mem m k).mpr hmem)
    simp [List.nodup_append, h, hk]

theorem keysNodup_mapDelete (m : SessionMap) (k : String) (h : KeysNodup m) :
    KeysNodup (mapDelete m k) := by
  unfold KeysNodup mapKeys mapDelete at *
  exact List.Nodup.sublist (List.Sublist.map _ (List.filter_sublist _)) h

theorem countKey_eq_zero_of_not_mem (m : SessionMap) (k : String) (h : k ∉ mapKeys m) :
    countKey m k = 0 := by
  unfold countKey
  rw [List.length_eq_zero, List.filter_eq_nil_iff]
  intro p hp
  simp only [decide_eq_true_eq]
  intro he
  exact h (List.mem_map.mpr ⟨p, hp, he⟩)

theorem countKey_le_one (m : SessionMap) (k : String) (h : KeysNodup m) :
    countKey m k ≤ 1 := by
  unfold KeysNodup at h
  induction m with
  | nil => simp [countKey]
  | cons p rest ih =>
    rcases List.nodup_cons.mp h with ⟨hp, hrest⟩
    by_cases hpk : p.1 = k
    · have h0 : List.filter (fun q : String × String => decide (q.1 = k)) rest = [] := by
        have h1 := countKey_eq_zero_of_not_mem rest k (by rw [← hpk]; exact hp)
        unfold countKey at h1
        exact List.length_eq_zero.mp h1
      simp [countKey, List.filter_cons, hpk, h0]
    · simp only [countKey, List.filter_cons, hpk] at ih ⊢
      simp only [decide_eq_true_eq, if_neg hpk]
      simpa [countKey] using ih hrest

theorem countKey_mapSet_self (m : SessionMap) (k v : String) (h : KeysNodup m) :
    countKey (mapSet m k v) k = 1 := by
  by_cases hh : mapHas m k = true
  · have hcount : countKey (mapSet m k v) k = countKey m k := by
      unfold mapSet countKey
      rw [hh]
      simp only [eq_self_iff_true, if_true]
      rw [List.filter_map]
      have heq : ((fun p : String × String => decide (p.1 = k)) ∘
          (fun p : String × String => if p.1 = k then (k, v) else p)) =
          fun p : String × String => decide (p.1 = k) := by
        funext p
        by_cases hp : p.1 = k <;> simp [hp]
      rw [heq, List.length_map]
    rw [hcount]
    have hle := countKey_le_one m k h
    have hge : 1 ≤ countKey m k := by
      rcases List.mem_map.mp ((mapHas_iff_mem m k).mp hh) with ⟨p, hpm, hpk⟩
      have hmem : p ∈ m.filter (fun p => decide (p.1 = k)) :=
        List.mem_filter.mpr ⟨hpm, by simp [hpk]⟩
      have := List.length_pos.mpr (List.ne_nil_of_mem hmem)
      simpa [countKey] using this
    omega
  · have hh' : mapHas m k = false := by simpa using hh
    have h0 : List.filter (fun p : String × String => decide (p.1 = k)) m = [] := by
      have := countKey_eq_zero_of_not_mem m k
        (fun hmem => hh ((mapHas_iff_mem m k).mpr hmem))
      unfold countKey at this
      exact List.length_eq_zero.mp this
    unfold mapSet
    rw [hh']
    simp [countKey, List.filter_append, h0]

-- ======================================================================
-- Lemmas about the hook bodies
-- ======================================================================

theorem exchangeAddHook_map (m : SessionMap) (key content : Option String) (o : CallOutcome) :
    (exchangeAddHook m key content o).map = m := by
  unfold exchangeAddHook
  split
  · rfl
  · split
    · rfl
    · split <;> rfl

theorem exchangeAddHook_raised (m : SessionMap) (key content : Option String) (o : CallOutcome) :
    (exchangeAddHook m key content o).raised = false := by
  unfold exchangeAddHook
  split
  · rfl
  · split
    · rfl
    · split <;> rfl

theorem sessionEndHook_raised (m : SessionMap) (k : String) (o : CallOutcome) :
    (sessionEndHook m k o).raised = false := by
  unfold sessionEndHook
  split
  · rfl
  · split
    · rfl
    · split <;> rfl

theorem sessionStartHook_raised (m : SessionMap) (k : String) (o : StartOutcome) :
    (sessionStartHook m k o).raised = false := by
  unfold sessionStartHook
  split
  · rfl
  · split
    · rfl
    · split <;> rfl

theorem keysNodup_trackerStep (m : SessionMap) (op : TrackerOp) (h : KeysNodup m) :
    KeysNodup (trackerStep m op) := by
  cases op with
  | sessionStart key o =>
    cases o with
    | err msg => simpa [trackerStep, sessionStartHook] using h
    | ok vid =>
      cases vid with
      | none => simpa [trackerStep, sessionStartHook] using h
      | some v =>
        by_cases hv : v = ""
        · simpa [trackerStep, sessionStartHook, hv] using h
        · simpa [trackerStep, sessionStartHook, hv] using keysNodup_mapSet m key v h
  | sessionEnd key o =>
    show KeysNodup (sessionEndHook m key o).map
    unfold sessionEndHook
    split
    · exact h
    · split
      · exact h
      · split
        · exact keysNodup_mapDelete m key h
        · exact h
  | messageReceived key content o =>
    simpa [trackerStep, messageReceivedHook, exchangeAddHook_map] using h
  | messageSent key content o =>
    simpa [trackerStep, messageSentHook, exchangeAddHook_map] using h
  | serviceStop =>
    simp [trackerStep, serviceStopHook, KeysNodup, mapKeys]

theorem mapGet_mapDelete (m : SessionMap) (k : String) :
    mapGet (mapDelete m k) k = none := by
  unfold mapGet mapDelete
  induction m with
  | nil => rfl
  | cons p rest ih =>
    by_cases hp : p.1 = k
    · simp [List.filter_cons, hp]
    · simp [List.filter_cons, hp, List.find?_cons_of_neg]

-- ======================================================================
-- Claim theorems
-- ======================================================================

/-- C1 (counterexample): the claim that exchange recording on a local
key absent from the in-memory session map issues no `exchange_add` call
is false on the code: with the map tracking only the unrelated entry
("other", "v-1"), a `message_received` event for the absent key
"chan-x" falls into `findValenceSession`'s linear-scan fallback and
issues `exchange_add` against "v-1". -/
theorem c1_counterexample :
    mapHas [("other", "v-1")] "chan-x" = false ∧
    (messageReceivedHook [("other", "v-1")] (some "chan-x") (some "hello") (.ok .null)).calls =
      [⟨"exchange_add", some "v-1"⟩] := by
  decide

/-- C1 (amended): lifecycle handlers on an untracked local key never
raise and never change the map; `session_end` on an untracked key
returns without any remote call; exchange recording issues no
`exchange_add` when the session map is empty (and the CLI flush hook
with no session id issues nothing); but when other sessions are
tracked, an absent key falls back to the FIRST tracked entry's remote
id and records the exchange against it. -/
theorem c1_unknown_key_lifecycle (m : SessionMap) (k : String) (key content : Option String)
    (o o₁ o₂ o₃ : CallOutcome) (k₀ v₀ kk c : String) (rest : SessionMap)
    (huntracked : mapGet m k = none)
    (hfb : mapHas ((k₀, v₀) :: rest) kk = false) (hkk : kk ≠ "") (hc : c ≠ "") :
    sessionEndHook m k o = ⟨[], m, false⟩ ∧
    messageReceivedHook [] key content o₁ = ⟨[], [], false⟩ ∧
    messageSentHook [] key content o₂ = ⟨[], [], false⟩ ∧
    (messageReceivedHook m key content o₁).raised = false ∧
    (messageReceivedHook m key content o₁).map = m ∧
    beforeCompactionHook true none = [] ∧
    messageReceivedHook ((k₀, v₀) :: rest) (some kk) (some c) o₃ =
      ⟨[⟨"exchange_add", some v₀⟩], (k₀, v₀) :: rest, false⟩ := by
  refine ⟨?_, ?_, ?_, ?_, ?_, rfl, ?_⟩
  · simp [sessionEndHook, huntracked]
  · cases key with
    | none => rfl
    | some k' =>
      by_cases hk' : k' = "" <;>
        simp [messageReceivedHook, exchangeAddHook, findValenceSession, mapHas, hk']
  · cases key with
    | none => rfl
    | some k' =>
      by_cases hk' : k' = "" <;>
        simp [messageSentHook, exchangeAddHook, findValenceSession, mapHas, hk']
  · exact exchangeAddHook_raised m key content o₁
  · exact exchangeAddHook_map m key content o₁
  · simp [messageReceivedHook, exchangeAddHook, findValenceSession, hkk, hfb, hc]

/-- C1 (witness): the amended statement at concrete inputs. -/
theorem c1_unknown_key_lifecycle_witness :
    sessionEndHook [] "agent-1" (.err "e") = ⟨[], [], false⟩ ∧
    messageReceivedHook [] (some "chan-x") (some "hi") (.err "e") = ⟨[], [], false⟩ ∧
    messageSentHook [] (some "chan-x") (some "hi") (.err "e") = ⟨[], [], false⟩ ∧
    (messageReceivedHook [] (some "chan-x") (some "hi") (.err "e")).raised = false ∧
    (messageReceivedHook [] (some "chan-x") (some "hi") (.err "e")).map = [] ∧
    beforeCompactionHook true none = [] ∧
    messageReceivedHook [("other", "v-1")] (some "chan-x") (some "hello") (.err "e") =
      ⟨[⟨"exchange_add", some "v-1"⟩], [("other", "v-1")], false⟩ :=
  c1_unknown_key_lifecycle [] "agent-1" (some "chan-x") (some "hi") (.err "e") (.err "e")
    (.err "e") (.err "e") "other" "v-1" "chan-x" "hello" [] (by rfl) (by decide) (by decide)
    (by decide)

/-- C3 (counterexample): the claim that `session_end` on a tracked key
always removes the mapping even when the remote finalize call fails is
false on the code: with the map tracking ("s1", "v-1"), a failing
remote `session_end` call leaves the mapping in place (the delete sits
after the awaited call inside the try block). -/
theorem c3_counterexample :
    (sessionEndHook [("s1", "v-1")] "s1" (.err "network down")).calls =
      [⟨"session_end", some "v-1"⟩] ∧
    (sessionEndHook [("s1", "v-1")] "s1" (.err "network down")).map = [("s1", "v-1")] := by
  decide

/-- C3 (amended): `session_end` on a tracked key removes the mapping
when the remote finalize call succeeds — a subsequent lookup of the key
finds nothing, so a later `session_start` sees the key as new — but
when the remote call fails the mapping is retained unchanged. -/
theorem c3_finalize_removes_on_success (m : SessionMap) (k v : String) (x : JsValue)
    (e : String) (hv : mapGet m k = some v) (hne : v ≠ "") :
    (sessionEndHook m k (.ok x)).map = mapDelete m k ∧
    mapGet (sessionEndHook m k (.ok x)).map k = none ∧
    (sessionEndHook m k (.err e)).map = m := by
  refine ⟨?_, ?_, ?_⟩
  · simp [sessionEndHook, hv, hne]
  · simp [sessionEndHook, hv, hne, mapGet_mapDelete]
  · simp [sessionEndHook, hv, hne]

/-- C3 (witness): the amended statement at a concrete tracked map. -/
theorem c3_finalize_removes_on_success_witness :
    (sessionEndHook [("s1", "v-1")] "s1" (.ok .null)).map = mapDelete [("s1", "v-1")] "s1" ∧
    mapGet (sessionEndHook [("s1", "v-1")] "s1" (.ok .null)).map "s1" = none ∧
    (sessionEndHook [("s1", "v-1")] "s1" (.err "down")).map = [("s1", "v-1")] :=
  c3_finalize_removes_on_success [("s1", "v-1")] "s1" "v-1" .null "down" (by rfl) (by decide)

/-- C4: every session-tracker operation (session_start, session_end,
exchange recording, service stop) preserves the invariant that the map
holds at most one remote session id per local key, and two consecutive
session_start events on the same key leave exactly one tracked id for
that key. -/
theorem c4_at_most_one_session_per_key (m : SessionMap) (op : TrackerOp)
    (k key v₁ v₂ : String) (h : KeysNodup m) (h₁ : v₁ ≠ "") (h₂ : v₂ ≠ "") :
    KeysNodup (trackerStep m op) ∧
    countKey (trackerStep m op) k ≤ 1 ∧
    countKey (trackerStep (trackerStep m (.sessionStart key (.ok (some v₁))))
      (.sessionStart key (.ok (some v₂)))) key = 1 := by
  refine ⟨keysNodup_trackerStep m op h,
    countKey_le_one _ _ (keysNodup_trackerStep m op h), ?_⟩
  have e₁ : trackerStep m (.sessionStart key (.ok (some v₁))) = mapSet m key v₁ := by
    simp [trackerStep, sessionStartHook, h₁]
  have e₂ : trackerStep (mapSet m key v₁) (.sessionStart key (.ok (some v₂))) =
      mapSet (mapSet m key v₁) key v₂ := by
    simp [trackerStep, sessionStartHook, h₂]
  rw [e₁, e₂]
  exact countKey_mapSet_self _ key v₂ (keysNodup_mapSet m key v₁ h)

/-- C4 (witness): the invariant statement at a concrete map and
operation. -/
theorem c4_at_most_one_session_per_key_witness :
    KeysNodup (trackerStep [("a", "v-0")] .serviceStop) ∧
    countKey (trackerStep [("a", "v-0")] .serviceStop) "chan-1" ≤ 1 ∧
    countKey (trackerStep (trackerStep [("a", "v-0")]
      (.sessionStart "chan-1" (.ok (some "s-100"))))
      (.sessionStart "chan-1" (.ok (some "s-101")))) "chan-1" = 1 :=
  c4_at_most_one_session_per_key [("a", "v-0")] .serviceStop "chan-1" "chan-1" "s-100" "s-101"
    (by simp [KeysNodup, mapKeys]) (by decide) (by decide)

/-- C5 (counterexample): the claim that the MEMORY.md fallback is
attempted only when the recall call itself fails is false on the code:
a `belief_query` call that SUCCEEDS but returns a `beliefs` array
containing a `null` entry makes `beliefSummary` throw on the
`belief.confidence` access inside the try, and the catch then reads
MEMORY.md even though the remote call succeeded. -/
theorem c5_counterexample :
    (beforeAgentStart true (some "what did we decide")
      (.ok (.obj [("beliefs", .arr [.null])])) (some "/ws/MEMORY.md")
      (some "snapshot")).readMemoryMd = true ∧
    (beforeAgentStart true (some "what did we decide")
      (.ok (.obj [("beliefs", .arr [.null])])) (some "/ws/MEMORY.md")
      (some "snapshot")).systemPrompt = fallbackPrompt "snapshot" := by
  exact ⟨rfl, rfl⟩

/-- C5 (amended): with auto-recall enabled and a prompt of non-trivial
length, a recall call that succeeds with an empty `beliefs` list is a
successful outcome — the hook returns the base system prompt with
nothing injected and does not read MEMORY.md; a successful recall with
a non-empty well-formed belief list (no null entries, whose rendering
cannot throw) likewise never reads MEMORY.md; the fallback read
happens when the recall attempt throws — the call itself failing, or
the processing of a malformed response throwing — and a MEMORY.md path
is configured. -/
theorem c5_empty_recall_no_fallback (p : String) (rest : List (String × JsValue))
    (mdPath mdFile : Option String) (bs : List JsValue) (e pathStr : String)
    (hp : 5 ≤ p.length) (hbs : bs.any beliefSummaryThrows = false) :
    beforeAgentStart true (some p) (.ok (.obj (("beliefs", .arr []) :: rest))) mdPath mdFile =
      ⟨valenceSystemPrompt, true, false⟩ ∧
    (beforeAgentStart true (some p) (.ok (.obj (("beliefs", .arr bs) :: rest)))
      mdPath mdFile).readMemoryMd = false ∧
    (beforeAgentStart true (some p) (.error e) (some pathStr) mdFile).readMemoryMd = true := by
  have hlt : ¬ p.length < 5 := Nat.not_lt.mpr hp
  refine ⟨?_, ?_, ?_⟩
  · simp [beforeAgentStart, hlt, jsGet]
  · cases bs with
    | nil => simp [beforeAgentStart, hlt, jsGet]
    | cons b more => simp [beforeAgentStart, hlt, jsGet, hbs]
  · cases mdFile with
    | none => simp [beforeAgentStart, hlt, recallFallback]
    | some content =>
      by_cases hc : (jsTrim content).length > 0 <;>
        simp [beforeAgentStart, hlt, recallFallback, hc]

/-- C5 (witness): the amended statement at a concrete prompt, a
concrete well-formed non-empty recall response, and a concrete failing
recall. -/
theorem c5_empty_recall_no_fallback_witness :
    beforeAgentStart true (some "what did we decide")
      (.ok (.obj [("beliefs", .arr [])])) (some "/ws/MEMORY.md") (some "snapshot") =
      ⟨valenceSystemPrompt, true, false⟩ ∧
    (beforeAgentStart true (some "what did we decide")
      (.ok (.obj [("beliefs", .arr [.obj [("content", .str "We use Postgres")]])]))
      (some "/ws/MEMORY.md") (some "snapshot")).readMemoryMd = false ∧
    (beforeAgentStart true (some "what did we decide") (.error "ECONNREFUSED")
      (some "/ws/MEMORY.md") (some "snapshot")).readMemoryMd = true :=
  c5_empty_recall_no_fallback "what did we decide" [] (some "/ws/MEMORY.md") (some "snapshot")
    [.obj [("content", .str "We use Postgres")]] "ECONNREFUSED" "/ws/MEMORY.md"
    (by decide) (by rfl)

/-- C6: the CLI `before_compaction` hook with an available session id
issues the flush call and — exactly when compile-on-flush is
configured — immediately afterwards the compile call with an explicit
120-second timeout, while the flush call (like every `valenceExec`
call without an explicit option) gets the 30-second default. -/
theorem c6_flush_then_compile (sid : String) (h : sid ≠ "") :
    beforeCompactionHook true (some sid) =
      [⟨["sessions", "flush", sid], none⟩, ⟨["sessions", "compile", sid], some 120000⟩] ∧
    beforeCompactionHook false (some sid) = [⟨["sessions", "flush", sid], none⟩] ∧
    effectiveTimeout none = 30000 ∧
    effectiveTimeout (some 120000) = 120000 := by
  refine ⟨?_, ?_, rfl, rfl⟩ <;> simp [beforeCompactionHook, h]

/-- C6 (witness): the statement at the session id "s-100". -/
theorem c6_flush_then_compile_witness :
    beforeCompactionHook true (some "s-100") =
      [⟨["sessions", "flush", "s-100"], none⟩,
       ⟨["sessions", "compile", "s-100"], some 120000⟩] ∧
    beforeCompactionHook false (some "s-100") = [⟨["sessions", "flush", "s-100"], none⟩] ∧
    effectiveTimeout none = 30000 ∧
    effectiveTimeout (some 120000) = 120000 :=
  c6_flush_then_compile "s-100" (by decide)

/-- C7: the `subagent_spawned` hook with no tracked parent session
still issues exactly one child `sessions start` call whose argument
list omits the `--parent-session-id` flag, and the handler does not
raise; with a tracked (truthy) parent id the flag is appended. -/
theorem c7_spawn_child_without_parent (childId platform channel pid : String)
    (hpid : pid ≠ "") :
    subagentSpawnedHook none childId platform channel =
      ⟨[⟨["sessions", "start", childId, "--platform", platform, "--channel", channel], none⟩],
        false⟩ ∧
    (subagentSpawnedHook none childId platform channel).raised = false ∧
    subagentSpawnedHook (some pid) childId platform channel =
      ⟨[⟨["sessions", "start", childId, "--platform", platform, "--channel", channel,
          "--parent-session-id", pid], none⟩], false⟩ := by
  refine ⟨rfl, rfl, ?_⟩
  simp [subagentSpawnedHook, hpid]

/-- C7 (witness): the statement at concrete child and parent ids; at
these values the parent flag is provably absent from the issued
argument list. -/
theorem c7_spawn_child_without_parent_witness :
    subagentSpawnedHook none "chan-1-sub" "openclaw" "slack" =
      ⟨[⟨["sessions", "start", "chan-1-sub", "--platform", "openclaw", "--channel", "slack"],
          none⟩], false⟩ ∧
    (subagentSpawnedHook none "chan-1-sub" "openclaw" "slack").raised = false ∧
    subagentSpawnedHook (some "s-99") "chan-1-sub" "openclaw" "slack" =
      ⟨[⟨["sessions", "start", "chan-1-sub", "--platform", "openclaw", "--channel", "slack",
          "--parent-session-id", "s-99"], none⟩], false⟩ :=
  c7_spawn_child_without_parent "chan-1-sub" "openclaw" "slack" "s-99" (by decide)

theorem valenceExec_err_success (parse : String → Option JsValue)
    (stderr stdout message : String) :
    (valenceExec parse (.err stderr stdout message)).success = false := by
  cases hp : parse stdout with
  | none => simp [valenceExec, hp]
  | some v => cases v <;> simp [valenceExec, hp]

theorem valenceExec_err_error_isSome (parse : String → Option JsValue)
    (stderr stdout message : String) :
    (valenceExec parse (.err stderr stdout message)).error.isSome = true := by
  cases hp : parse stdout with
  | none => simp [valenceExec, hp]
  | some v => cases v <;> simp [valenceExec, hp]

theorem healthCheck_of_failure (r : ValenceResult) (hr : r.success = false) :
    (healthCheck r).ok = false ∧ (healthCheck r).error = r.error := by
  unfold healthCheck
  cases hd : r.data with
  | none => exact ⟨rfl, rfl⟩
  | some d => simp [hr]

/-- C8: a transport payload that is not valid JSON is wrapped as an
opaque text value instead of raising: the CLI backend returns a success
result whose data is an object with the trimmed stdout under the key
"text" when parsing the (resolved) stdout fails, and the RPC backend
returns the joined text content under the key "text" when parsing the
joined text content fails. -/
theorem c8_unparseable_payload_wrapped_as_text (parse : String → Option JsValue)
    (stdout stderr : String) (items : List ContentItem)
    (hp : parse stdout = none)
    (hne : ((items.filter (fun c => c.type = "text")).map (fun c => c.text)) ≠ [])
    (hj : parse (String.intercalate "\n"
      ((items.filter (fun c => c.type = "text")).map (fun c => c.text))) = none) :
    valenceExec parse (.ok stdout stderr) =
      ⟨true, some (.obj [("text", .str (jsTrim stdout))]), none⟩ ∧
    mcpCall parse (.result (some items)) =
      .ok (.obj [("text", .str (String.intercalate "\n"
        ((items.filter (fun c => c.type = "text")).map (fun c => c.text))))]) := by
  constructor
  · simp [valenceExec, hp]
  · simp [mcpCall, hj, hne]

/-- C8 (witness): the statement with a constantly failing parser and a
concrete non-JSON payload. -/
theorem c8_unparseable_payload_wrapped_as_text_witness :
    valenceExec (fun _ => none) (.ok "  stored ok  " "") =
      ⟨true, some (.obj [("text", .str (jsTrim "  stored ok  "))]), none⟩ ∧
    mcpCall (fun _ => none) (.result (some [⟨"text", "not json"⟩])) =
      .ok (.obj [("text", .str (String.intercalate "\n"
        (([(⟨"text", "not json"⟩ : ContentItem)].filter
          (fun c => c.type = "text")).map (fun c => c.text))))]) :=
  c8_unparseable_payload_wrapped_as_text (fun _ => none) "  stored ok  " ""
    [⟨"text", "not json"⟩] (by rfl) (by decide) (by rfl)

/-- C9: `healthCheck` passes its own 5-second timeout to the `status`
CLI call, distinct from the 30-second default of unconfigured calls; on
any failed subprocess outcome it returns `ok: false` carrying the
transport error instead of throwing; and the `valence status` CLI
command surfaces the failure by a non-zero exit code exactly when the
health check reports unreachability. -/
theorem c9_healthcheck_timeout_and_exit (parse : String → Option JsValue) (o : ExecOutcome)
    (h : HealthResult) (hfail : o.isOk = false) :
    effectiveTimeout healthCheckInvocation.timeoutOption = 5000 ∧
    healthCheckInvocation.args = ["status"] ∧
    effectiveTimeout none = 30000 ∧
    (healthCheck (valenceExec parse o)).ok = false ∧
    (healthCheck (valenceExec parse o)).error = (valenceExec parse o).error ∧
    (healthCheck (valenceExec parse o)).error.isSome = true ∧
    (valenceStatusExitCode h = 0 ↔ h.ok = true) := by
  cases o with
  | ok stdout stderr => simp [ExecOutcome.isOk] at hfail
  | err stderr stdout message =>
    have hs := valenceExec_err_success parse stderr stdout message
    have hh := healthCheck_of_failure (valenceExec parse (.err stderr stdout message)) hs
    refine ⟨rfl, rfl, rfl, hh.1, hh.2, ?_, ?_⟩
    · rw [hh.2]
      exact valenceExec_err_error_isSome parse stderr stdout message
    · rcases h with ⟨ok, ver, db, er⟩
      cases ok <;> simp [valenceStatusExitCode]

/-- C9 (witness): the statement at a concrete failing subprocess
outcome. -/
theorem c9_healthcheck_timeout_and_exit_witness :
    effectiveTimeout healthCheckInvocation.timeoutOption = 5000 ∧
    healthCheckInvocation.args = ["status"] ∧
    effectiveTimeout none = 30000 ∧
    (healthCheck (valenceExec (fun _ => none) (.err "connection refused" "" "spawn error"))).ok =
      false ∧
    (healthCheck (valenceExec (fun _ => none)
      (.err "connection refused" "" "spawn error"))).error =
      (valenceExec (fun _ => none) (.err "connection refused" "" "spawn error")).error ∧
    (healthCheck (valenceExec (fun _ => none)
      (.err "connection refused" "" "spawn error"))).error.isSome = true ∧
    (valenceStatusExitCode ⟨false, none, none, some (.str "connection refused")⟩ = 0 ↔
      (⟨false, none, none, some (.str "connection refused")⟩ : HealthResult).ok = true) :=
  c9_healthcheck_timeout_and_exit (fun _ => none) (.err "connection refused" "" "spawn error")
    ⟨false, none, none, some (.str "connection refused")⟩ (by rfl)

/-- C10: the two CLI executors are total at the promise level — for
every parser behavior and subprocess outcome they resolve with a
result whose success flag states exactly whether the subprocess
succeeded (resolved, respectively exited 0) and whose error field is
populated exactly on failure; no path rejects. -/
theorem c10_cli_exec_total (parse : String → Option JsValue) (o : ExecOutcome)
    (so : SpawnOutcome) :
    (valenceExec parse o).success = o.isOk ∧
    (valenceExec parse o).error.isSome = !o.isOk ∧
    (valenceExecWithStdin parse so).success = so.isCleanExit ∧
    (valenceExecWithStdin parse so).error.isSome = !so.isCleanExit := by
  refine ⟨?_, ?_, ?_, ?_⟩
  · cases o with
    | ok stdout stderr =>
      cases hp : parse stdout with
      | none => simp [valenceExec, ExecOutcome.isOk, hp]
      | some v => cases v <;> simp [valenceExec, ExecOutcome.isOk, hp]
    | err stderr stdout message =>
      cases hp : parse stdout with
      | none => simp [valenceExec, ExecOutcome.isOk, hp]
      | some v => cases v <;> simp [valenceExec, ExecOutcome.isOk, hp]
  · cases o with
    | ok stdout stderr =>
      cases hp : parse stdout with
      | none => simp [valenceExec, ExecOutcome.isOk, hp]
      | some v => cases v <;> simp [valenceExec, ExecOutcome.isOk, hp]
    | err stderr stdout message =>
      simp [ExecOutcome.isOk, valenceExec_err_error_isSome parse stderr stdout message]
  · cases so with
    | procError message => rfl
    | close code stdout stderr =>
      by_cases hc : code = some 0 <;>
        cases hp : parse stdout with
        | none => simp [valenceExecWithStdin, SpawnOutcome.isCleanExit, hp, hc]
        | some v => cases v <;> simp [valenceExecWithStdin, SpawnOutcome.isCleanExit, hp, hc]
  · cases so with
    | procError message => rfl
    | close code stdout stderr =>
      by_cases hc : code = some 0 <;>
        cases hp : parse stdout with
        | none => simp [valenceExecWithStdin, SpawnOutcome.isCleanExit, hp, hc]
        | some v => cases v <;> simp [valenceExecWithStdin, SpawnOutcome.isCleanExit, hp, hc]
